import Mathlib

/-!
Verification of the IDSE emissions scraper's certificate/container/signing
core and its login handshake.

The development shallowly embeds the two core source files:
* `cert-to-pfx.ts` (class `CertificateConverter`): certificate and private-key
  parsing with ordered fallbacks, PKCS#12 container building and validation;
* `IDSEConnection.ts` (class `IDSEConnection`): PKCS#7 signing over a portal
  challenge and the login handshake state machine.

Calls into the third-party `node-forge` library are modelled symbolically:
its decoders appear as uninterpreted functions (fields of `ForgeApi`), and the
PKCS#12 container layer is modelled algebraically (`PfxDer`), with a fresh
`nonce` standing for the random salt/IV forge draws on every build.
JavaScript string operations (`String.prototype.replace`, `includes`, `trim`)
are given executable semantics over `List Char` / byte lists.
-/

/-! ## JavaScript string-operation semantics -/

/-- `startsWithSeq pat l` is true when `pat` occurs at the head of `l`
(the anchored part of JavaScript substring search). -/
def startsWithSeq {α : Type} [DecidableEq α] : List α → List α → Bool
  | [], _ => true
  | _ :: _, [] => false
  | p :: ps, c :: cs => p = c && startsWithSeq ps cs

/-- `containsSeq pat l` models JavaScript `l.includes(pat)`: `pat` occurs
contiguously somewhere in `l`. -/
def containsSeq {α : Type} [DecidableEq α] (pat : List α) : List α → Bool
  | [] => startsWithSeq pat []
  | l@(_ :: rest) => startsWithSeq pat l || containsSeq pat rest

/-- Models JavaScript `s.replace(pat, rep)` with a *string* pattern: only the
first occurrence of `pat` is replaced. -/
def replaceFirst {α : Type} [DecidableEq α] (pat rep : List α) : List α → List α
  | [] => if startsWithSeq pat [] then rep else []
  | l@(c :: rest) =>
    if startsWithSeq pat l then rep ++ l.drop pat.length
    else c :: replaceFirst pat rep rest

/-- Models JavaScript `s.replace(/\r\n/g, "")` (the only global replace the
source performs): every non-overlapping CRLF pair is removed, scanning left
to right. -/
def removeCRLF : List Char → List Char
  | [] => []
  | [c] => [c]
  | c₁ :: c₂ :: rest =>
    if c₁ = '\r' ∧ c₂ = '\n' then removeCRLF rest
    else c₁ :: removeCRLF (c₂ :: rest)

/-- The whitespace characters JavaScript `String.prototype.trim` strips
(ASCII portion, which is all the portal responses can contain). -/
def jsWhitespace : List Char := [' ', '\t', '\n', '\r', '\x0b', '\x0c']

/-- Models JavaScript `s.trim()`. -/
def trimSeq (l : List Char) : List Char :=
  ((l.dropWhile (· ∈ jsWhitespace)).reverse.dropWhile (· ∈ jsWhitespace)).reverse

/-! ## Crypto data model

`node-forge`'s PKCS#12 layer is modelled algebraically: a well-formed PFX DER
blob is a list of safe-contents (each a list of safe bags) together with the
password that protects it, the encryption algorithm used for the shrouded key
bag, and a `nonce` recording the random salt/IV material forge draws freshly
for every serialization (so two builds with distinct nonces yield distinct
bytes). Anything forge's ASN.1 decoder rejects is `notP12`. -/

/-- RSA private-key material (the fields the claims observe). -/
structure RSAPrivateKey where
  modulus : Nat
  publicExponent : Nat
  privateExponent : Nat
deriving DecidableEq

/-- A parsed X.509 certificate: ordered subject attributes plus an opaque
serial for the rest of the TBS data. -/
structure Certificate where
  subject : List (String × String)
  serial : Nat
deriving DecidableEq

/-- Bag type OIDs distinguished by the source's extraction loops
(`forge.pki.oids.pkcs8ShroudedKeyBag` / `forge.pki.oids.certBag`). -/
inductive SafeBagType where
  | shroudedKeyBag
  | certBag
  | otherBag
deriving DecidableEq

/-- A PKCS#12 safe bag as the source observes it: a type OID, an optional
key (`bag.key`) and an optional certificate (`bag.cert`). -/
structure SafeBag where
  bagType : SafeBagType
  key : Option RSAPrivateKey
  cert : Option Certificate
deriving DecidableEq

/-- Container encryption algorithms `node-forge`'s `toPkcs12Asn1` recognizes
as used here: legacy `'3des'` and modern `'aes256'`. -/
inductive P12Alg where
  | threeDes
  | aes256
deriving DecidableEq

/-- Symbolic PFX/PKCS#12 DER bytes. -/
inductive PfxDer where
  | p12 (contents : List (List SafeBag)) (password : String) (alg : P12Alg) (nonce : Nat)
  | notP12 (raw : List Nat)
deriving DecidableEq

/-- Errors raised by the modelled `node-forge` calls. `macVerifyFailure` is
the MAC-integrity error whose message contains `"Invalid password"`,
`asn1Failure` the structural decode error whose message contains `"ASN.1"`. -/
inductive ForgeErr where
  | macVerifyFailure
  | asn1Failure
  | other (msg : String)
deriving DecidableEq

/-- Parsed PKCS#12 structure (`p12.safeContents`). -/
structure P12 where
  safeContents : List (List SafeBag)
deriving DecidableEq

/-- Models `forge.asn1.fromDer` followed by `forge.pkcs12.pkcs12FromAsn1`:
structural failure on non-PFX bytes, MAC failure on a wrong password,
otherwise the decoded safe contents. -/
def pkcs12FromAsn1 : PfxDer → String → Except ForgeErr P12
  | .notP12 _, _ => .error .asn1Failure
  | .p12 contents pw _ _, given =>
    if given = pw then .ok ⟨contents⟩ else .error .macVerifyFailure

/-- Models `forge.pkcs12.toPkcs12Asn1(privateKey, certificate, password,
{algorithm})` followed by `forge.asn1.toDer`: one certificate bag and one
shrouded key bag under the given password; `nonce` is the fresh random
salt/IV material of this call. -/
def toPkcs12Asn1 (key : RSAPrivateKey) (cert : Certificate) (password : String)
    (alg : P12Alg) (nonce : Nat) : PfxDer :=
  .p12 [[⟨.certBag, none, some cert⟩], [⟨.shroudedKeyBag, some key, none⟩]]
    password alg nonce

/-- The algorithm a PFX blob is encrypted with (none for malformed bytes). -/
def pfxAlg : PfxDer → Option P12Alg
  | .p12 _ _ alg _ => some alg
  | .notP12 _ => none

/-- One step of the bag-scanning loops in `IDSEConnection.generarPKCS7` and
`CertificateConverter.validatePfx`: an `if bag.type === pkcs8ShroudedKeyBag
&& bag.key` branch, `else if bag.type === certBag && bag.cert` branch. The
accumulator is the pair of the loop's `privateKey`/`certificate` variables. -/
def scanBagStep (acc : Option RSAPrivateKey × Option Certificate) (bag : SafeBag) :
    Option RSAPrivateKey × Option Certificate :=
  if bag.bagType = .shroudedKeyBag ∧ bag.key.isSome then (bag.key, acc.2)
  else if bag.bagType = .certBag ∧ bag.cert.isSome then (acc.1, bag.cert)
  else acc

/-- The nested `for (const safeContent of p12.safeContents) for (const bag of
safeContent.safeBags)` extraction loop (source `IDSEConnection.ts:66-76`). -/
def extractKeyCert (p : P12) : Option RSAPrivateKey × Option Certificate :=
  p.safeContents.foldl (fun acc bags => bags.foldl scanBagStep acc) (none, none)

/-- The container-opening path of `IDSEConnection.generarPKCS7`
(`IDSEConnection.ts:56-80`): decode + decrypt the PFX, scan the bags, and
fail when either the key or the certificate is missing (the
`"No se pudo cargar la llave privada o el certificado."` throw). -/
def openPfx (bytes : PfxDer) (password : String) :
    Except ForgeErr (RSAPrivateKey × Certificate) :=
  match pkcs12FromAsn1 bytes password with
  | .error e => .error e
  | .ok p12 =>
    match extractKeyCert p12 with
    | (some k, some c) => .ok (k, c)
    | _ => .error (.other "No se pudo cargar la llave privada o el certificado.")

/-- One step of the flag-setting loop in `CertificateConverter.validatePfx`
(source `cert-to-pfx.ts:211-219`): sets `hasKey` / `hasCert`. -/
def validateBagStep (acc : Bool × Bool) (bag : SafeBag) : Bool × Bool :=
  if bag.bagType = .shroudedKeyBag ∧ bag.key.isSome then (true, acc.2)
  else if bag.bagType = .certBag ∧ bag.cert.isSome then (acc.1, true)
  else acc

/-- `CertificateConverter.validatePfx(pfxBuffer, password)`
(source `cert-to-pfx.ts:202-226`): every decode/decrypt error is caught and
collapsed to `false`; otherwise the bags are scanned and the result is
`hasKey && hasCert`. Totality of this definition is the "never throws" part
of the contract. -/
def validatePfx (pfxBuffer : PfxDer) (password : String) : Bool :=
  match pkcs12FromAsn1 pfxBuffer password with
  | .error _ => false
  | .ok p12 =>
    let flags := p12.safeContents.foldl (fun acc bags => bags.foldl validateBagStep acc)
      (false, false)
    flags.1 && flags.2

/-- A bag that satisfies the key branch of the loops. -/
def isKeyBag (bag : SafeBag) : Bool :=
  decide (bag.bagType = .shroudedKeyBag) && bag.key.isSome

/-- A bag that satisfies the certificate branch of the loops. -/
def isCertBag (bag : SafeBag) : Bool :=
  decide (bag.bagType = .certBag) && bag.cert.isSome

/-- All bags of a parsed container, flattened. -/
def allBags (p : P12) : List SafeBag := p.safeContents.flatten

/-! ## Certificate and private-key parsing (`cert-to-pfx.ts`)

The fetched `.cer`/`.key` files are byte lists (`List Nat`); the source's
`buffer.toString('utf8')` content, on which the PEM-marker `includes` checks
run, is modelled by the same byte list (the markers are pure ASCII). The
individual `node-forge` decoders the fallback chain calls are uninterpreted
functions, collected in `ForgeApi`. -/

/-- The bytes of an ASCII string literal. -/
def strBytes (s : String) : List Nat := s.data.map Char.toNat

/-- `'-----BEGIN CERTIFICATE-----'`, the canonical PEM certificate marker. -/
def certMarkerBytes : List Nat := strBytes "-----BEGIN CERTIFICATE-----"

/-- `'-----BEGIN'`, the generic PEM marker the key branch tests for. -/
def beginMarkerBytes : List Nat := strBytes "-----BEGIN"

/-- `'ENCRYPTED'`, the PEM-header word marking a legacy-encrypted key. -/
def encryptedMarkerBytes : List Nat := strBytes "ENCRYPTED"

/-- The `node-forge` decoding primitives the converter calls, as
uninterpreted functions. `keyFromDer` takes no password, mirroring the
source's password-free `privateKeyFromAsn1(fromDer(keyBuffer))` call. The
`encKeyPemChain` field collapses the source's
`encryptedPrivateKeyToPem(fromDer(..))` / `encryptedPrivateKeyFromPem` /
`encryptedPrivateKeyToPem` round-trip into one fallible step producing the
PEM text handed to `decryptRsaPrivateKey`. -/
structure ForgeApi where
  certFromPem : List Nat → Except ForgeErr Certificate
  certFromDer : List Nat → Except ForgeErr Certificate
  p12FromDer : List Nat → String → Except ForgeErr P12
  keyFromPem : List Nat → Except ForgeErr RSAPrivateKey
  decryptRsaPem : List Nat → String → Option RSAPrivateKey
  keyFromDer : List Nat → Except ForgeErr RSAPrivateKey
  decryptP8 : List Nat → String → Except ForgeErr (Option (List Nat))
  keyFromP8Info : List Nat → Except ForgeErr RSAPrivateKey
  encKeyPemChain : List Nat → Except ForgeErr (List Char)
  decryptRsaEncPem : List Char → String → Option RSAPrivateKey

/-- Which branch the certificate dispatch took. -/
inductive CertPath where
  | pemPath
  | derPath
deriving DecidableEq

/-- Certificate parsing (`cert-to-pfx.ts:128-134`, same dispatch at `32-40`):
if the content contains the PEM certificate marker, decode with
`certificateFromPem`, otherwise decode the raw bytes with
`fromDer`/`certificateFromAsn1`. The second component records the branch
taken; neither branch has any fallback. -/
def parseCertificateT (api : ForgeApi) (cerBytes : List Nat) :
    Except ForgeErr Certificate × CertPath :=
  if containsSeq certMarkerBytes cerBytes then (api.certFromPem cerBytes, .pemPath)
  else (api.certFromDer cerBytes, .derPath)

/-- The five key-parsing strategies, in the spec's numbering. -/
inductive KeyStrat where
  | pemPlain
  | pemEncrypted
  | derPlain
  | derPkcs8
  | derPkcs5
deriving DecidableEq

/-- DER key strategy 1 (`cert-to-pfx.ts:150-153`): unencrypted DER, parsed
without ever consulting the password. -/
def derStrat1 (api : ForgeApi) (keyBytes : List Nat) : Except ForgeErr RSAPrivateKey :=
  api.keyFromDer keyBytes

/-- DER key strategy 2 (`cert-to-pfx.ts:156-164`): encrypted PKCS#8 via
`decryptPrivateKeyInfo`; a `null` decryption result becomes the
`'Failed to decrypt private key'` throw, and the decrypted info is fed to
`privateKeyFromAsn1`. -/
def derStrat2 (api : ForgeApi) (keyBytes : List Nat) (password : String) :
    Except ForgeErr RSAPrivateKey :=
  match api.decryptP8 keyBytes password with
  | .error e => .error e
  | .ok none => .error (.other "Failed to decrypt private key")
  | .ok (some info) => api.keyFromP8Info info

/-- DER key strategy 3 (`cert-to-pfx.ts:166-178`): the legacy encrypted
PKCS#5 last resort — re-encode the DER as an encrypted-key PEM and call
`decryptRsaPrivateKey`; a `null` result becomes the
`'Cannot decrypt private key with any method'` throw. -/
def derStrat3 (api : ForgeApi) (keyBytes : List Nat) (password : String) :
    Except ForgeErr RSAPrivateKey :=
  match api.encKeyPemChain keyBytes with
  | .error e => .error e
  | .ok pem =>
    match api.decryptRsaEncPem pem password with
    | none => .error (.other "Cannot decrypt private key with any method")
    | some k => .ok k

/-- The nested `try`/`catch` chain of the DER branch
(`cert-to-pfx.ts:148-181`), instrumented with the list of strategies
attempted: strategy 2 runs inside `catch (e)`, strategy 3 inside
`catch (e2)`, and whatever strategy 3 raises propagates to the caller. -/
def parseKeyDerT (api : ForgeApi) (keyBytes : List Nat) (password : String) :
    Except ForgeErr RSAPrivateKey × List KeyStrat :=
  match derStrat1 api keyBytes with
  | .ok k => (.ok k, [.derPlain])
  | .error _ =>
    match derStrat2 api keyBytes password with
    | .ok k => (.ok k, [.derPlain, .derPkcs8])
    | .error _ => (derStrat3 api keyBytes password, [.derPlain, .derPkcs8, .derPkcs5])

/-- Private-key parsing (`cert-to-pfx.ts:136-181`), instrumented with the
strategies attempted: the PEM branch runs when the content contains
`'-----BEGIN'` (encrypted sub-branch when it also contains `'ENCRYPTED'`),
otherwise the DER fallback chain runs. -/
def parsePrivateKeyT (api : ForgeApi) (keyBytes : List Nat) (password : String) :
    Except ForgeErr RSAPrivateKey × List KeyStrat :=
  if containsSeq beginMarkerBytes keyBytes then
    if containsSeq encryptedMarkerBytes keyBytes then
      (match api.decryptRsaPem keyBytes password with
       | none => .error (.other "Failed to decrypt private key with provided password")
       | some k => .ok k, [.pemEncrypted])
    else (api.keyFromPem keyBytes, [.pemPlain])
  else parseKeyDerT api keyBytes password

/-- What `convertFromUrls` returns: either the fetched `.cer` bytes passed
through unchanged (the misnamed-PFX early return) or a freshly built
container. -/
inductive ConvertOut where
  | rawPfx (bytes : List Nat)
  | built (p : PfxDer)
deriving DecidableEq

/-- The normal conversion pipeline of `convertFromUrls` after the
misnamed-PFX probe (`cert-to-pfx.ts:128-196`): parse the certificate, parse
the private key, build a 3DES-encrypted PKCS#12. The Boolean records whether
the key-parsing section was reached. -/
def convertMain (api : ForgeApi) (cerBytes keyBytes : List Nat) (password : String)
    (nonce : Nat) : Except ForgeErr ConvertOut × Bool :=
  match (parseCertificateT api cerBytes).1 with
  | .error e => (.error e, false)
  | .ok cert =>
    match (parsePrivateKeyT api keyBytes password).1 with
    | .error e => (.error e, true)
    | .ok key => (.ok (.built (toPkcs12Asn1 key cert password .threeDes nonce)), true)

/-- `CertificateConverter.convertFromUrls` after the two fetches
(`cert-to-pfx.ts:103-196`): when the `.cer` bytes are longer than 100 bytes
and begin `0x30 0x82`, probe them as a PKCS#12 under the supplied password
and, on success, return them unchanged; on probe failure, and for all other
shapes, run the normal pipeline. The Boolean records whether the key bytes
were parsed. -/
def convertFromUrls (api : ForgeApi) (cerBytes keyBytes : List Nat)
    (password : String) (nonce : Nat) : Except ForgeErr ConvertOut × Bool :=
  if 100 < cerBytes.length ∧ cerBytes.getD 0 0 = 0x30 ∧ cerBytes.getD 1 0 = 0x82 then
    match api.p12FromDer cerBytes password with
    | .ok _ => (.ok (.rawPfx cerBytes), false)
    | .error _ => convertMain api cerBytes keyBytes password nonce
  else convertMain api cerBytes keyBytes password nonce

/-- Modelled from the spec: the `cipher` option of the container builder is
`node-forge`'s `toPkcs12Asn1` `options.algorithm` parameter, whose code is
not part of this repository (`src/` only contains its call sites, which pass
`'3des'`). Per the spec, the recognized values are `tripleDES` (legacy) and
`aes256` (modern), and an unspecified cipher defaults to the legacy one. -/
def resolveCipher : Option P12Alg → P12Alg
  | none => .threeDes
  | some a => a

/-! ## The IDSE connection (`IDSEConnection.ts`)

The two network endpoints and the PFX fetch are modelled by an environment
record holding each response; `login` is a pure function of that environment
and the connection state, additionally instrumented with whether the signer
(`generarPKCS7`) was invoked and with the `pkcs7` text submitted to the login
endpoint. -/

/-- The mutable fields of an `IDSEConnection` the handshake touches:
`this.cookies` and `this.isInitialized`. -/
structure ConnState where
  cookies : Option String
  ready : Bool
deriving DecidableEq

/-- `IDSEConnection.isLoggedIn` (`IDSEConnection.ts:19-21`):
`!!this.cookies && this.isInitialized` — an absent *or empty* cookie string
is falsy. -/
def isLoggedIn (s : ConnState) : Bool :=
  (match s.cookies with
   | none => false
   | some c => !c.isEmpty) && s.ready

/-- The distinct failures `generarPKCS7` can raise
(`IDSEConnection.ts:23-124`), after the `catch` block has rewritten
forge's password/ASN.1 messages. -/
inductive SignErr where
  | emptyContent
  | pfxFetchFailed (status : Nat)
  | pfxEmpty
  | wrongPfxPassword
  | invalidPfx
  | missingKeyOrCert
  | emptySignOutput
  | forgeOther (msg : String)
deriving DecidableEq

/-- The `catch` block of `generarPKCS7` (`IDSEConnection.ts:104-123`):
messages containing `'Invalid password'`/`'MAC verify failure'` become the
wrong-password error, messages containing `'Invalid PFX'`/`'ASN.1'` the
invalid-PFX error, anything else is rethrown. -/
def mapPkcs7Error : ForgeErr → SignErr
  | .macVerifyFailure => .wrongPfxPassword
  | .asn1Failure => .invalidPfx
  | .other msg => .forgeOther msg

/-- The environment a login run observes: the challenge response, the PFX
fetch, the output of forge's PKCS#7 signing, and the login response. -/
structure LoginEnv where
  firstOk : Bool
  firstStatus : Nat
  firstText : List Char
  pfxOk : Bool
  pfxStatus : Nat
  pfxLen : Nat
  pfxBytes : PfxDer
  pemOut : List Char
  loginOk : Bool
  loginStatus : Nat
  loginSetCookie : Option String

/-- `IDSEConnection.generarPKCS7(contenido)` (`IDSEConnection.ts:23-124`):
reject empty content, fetch the PFX (failure or empty file is an error),
open the container, require both bags, sign (the signed PEM produced by
forge is `env.pemOut`) and reject an empty result. -/
def generarPKCS7 (env : LoginEnv) (password : String) (contenido : List Char) :
    Except SignErr (List Char) :=
  if contenido.isEmpty || (trimSeq contenido).isEmpty then .error .emptyContent
  else if !env.pfxOk then .error (.pfxFetchFailed env.pfxStatus)
  else if env.pfxLen = 0 then .error .pfxEmpty
  else
    match pkcs12FromAsn1 env.pfxBytes password with
    | .error e => .error (mapPkcs7Error e)
    | .ok p12 =>
      match extractKeyCert p12 with
      | (some _, some _) =>
        if env.pemOut.isEmpty then .error .emptySignOutput else .ok env.pemOut
      | _ => .error .missingKeyOrCert

/-- `'-----BEGIN PKCS7-----'`. -/
def beginPkcs7 : List Char := "-----BEGIN PKCS7-----".data

/-- `'-----END PKCS7-----'`. -/
def endPkcs7 : List Char := "-----END PKCS7-----".data

/-- `'-----END+PKCS7-----'`, the portal-specific closing marker. -/
def endPlusPkcs7 : List Char := "-----END+PKCS7-----".data

/-- `'\r\n'`. -/
def crlfSeq : List Char := ['\r', '\n']

/-- The signed-text transform of `login` (`IDSEConnection.ts:187-190`):
`pkcs7.replace(/\r\n/g, "").replace("-----BEGIN PKCS7-----", "")
.replace("-----END PKCS7-----", "-----END+PKCS7-----")`. -/
def parsedpkcs7 (pkcs7 : List Char) : List Char :=
  replaceFirst endPkcs7 endPlusPkcs7
    (replaceFirst beginPkcs7 []
      (removeCRLF pkcs7))

/-- The transform exactly as the specification words it (all line breaks
removed, the opening marker *kept*, the closing marker replaced) — stated
only to compare with the source's `parsedpkcs7`. -/
def specWordedTransform (pkcs7 : List Char) : List Char :=
  replaceFirst endPkcs7 endPlusPkcs7 (removeCRLF pkcs7)

/-- The distinct failures `login` can raise (`IDSEConnection.ts:143-266`). -/
inductive LoginErr where
  | secuenciaFailed (status : Nat)
  | emptyChallenge
  | signFailure (e : SignErr)
  | emptyPkcs7Result
  | accesoFailed (status : Nat)
  | noCookies
deriving DecidableEq

/-- The spec's error taxonomy (§7). -/
inductive ErrorCategory where
  | networkError
  | credentialError
  | signingError
  | authenticationRejectedError
deriving DecidableEq

/-- The spec's categorization (§4.6, §7) of each `login` failure site:
transport failures and empty responses are `NetworkError`, signing-layer
credential failures are `CredentialError`, an empty signed output is
`SigningError`, and a handshake that completes without a `Set-Cookie` is
`AuthenticationRejectedError`. -/
def loginErrCategory : LoginErr → ErrorCategory
  | .secuenciaFailed _ => .networkError
  | .emptyChallenge => .networkError
  | .signFailure .emptyContent => .signingError
  | .signFailure (.pfxFetchFailed _) => .networkError
  | .signFailure .pfxEmpty => .networkError
  | .signFailure .wrongPfxPassword => .credentialError
  | .signFailure .invalidPfx => .credentialError
  | .signFailure .missingKeyOrCert => .credentialError
  | .signFailure .emptySignOutput => .signingError
  | .signFailure (.forgeOther _) => .credentialError
  | .emptyPkcs7Result => .signingError
  | .accesoFailed _ => .networkError
  | .noCookies => .authenticationRejectedError

/-- `setCookieHeader || undefined` (`IDSEConnection.ts:246`): an absent or
empty header leaves `this.cookies` undefined. -/
def jsCookieAssign : Option String → Option String
  | none => none
  | some s => if s.isEmpty then none else some s

/-- The outcome of one `login()` run: the final connection state, the
returned value or thrown error, whether `generarPKCS7` was invoked, and the
`pkcs7` field of the body submitted to the login endpoint (when the run got
that far). -/
structure LoginRun where
  state : ConnState
  result : Except LoginErr Bool
  signerInvoked : Bool
  submitted : Option (List Char)

/-- `IDSEConnection.login()` (`IDSEConnection.ts:143-266`): challenge fetch,
empty-body check, PKCS#7 signing, the marker transform, the login POST, and
the `Set-Cookie` requirement. On the no-cookie path `this.cookies` has
already been overwritten with `undefined` and `this.isInitialized` is not
set. -/
def login (env : LoginEnv) (password : String) (s : ConnState) : LoginRun :=
  if !env.firstOk then
    ⟨s, .error (.secuenciaFailed env.firstStatus), false, none⟩
  else if env.firstText.isEmpty || (trimSeq env.firstText).isEmpty then
    ⟨s, .error .emptyChallenge, false, none⟩
  else
    match generarPKCS7 env password env.firstText with
    | .error e => ⟨s, .error (.signFailure e), true, none⟩
    | .ok pkcs7 =>
      if pkcs7.isEmpty then ⟨s, .error .emptyPkcs7Result, true, none⟩
      else
        let submitted := parsedpkcs7 pkcs7
        if !env.loginOk then
          ⟨s, .error (.accesoFailed env.loginStatus), true, some submitted⟩
        else
          let cookies := jsCookieAssign env.loginSetCookie
          let s1 : ConnState := ⟨cookies, s.ready⟩
          if cookies.isNone then
            ⟨s1, .error .noCookies, true, some submitted⟩
          else
            ⟨⟨cookies, true⟩, .ok true, true, some submitted⟩


/-! ## Concrete sample objects (used by the witnesses) -/

/-- A small concrete RSA key. -/
def sampleKey : RSAPrivateKey := ⟨3233, 17, 413⟩

/-- A small concrete certificate. -/
def sampleCert : Certificate := ⟨[("CN", "ACME")], 9⟩

/-- A `ForgeApi` in which every decoder succeeds on some fixed output. -/
def apiOk : ForgeApi where
  certFromPem := fun _ => .ok sampleCert
  certFromDer := fun _ => .ok sampleCert
  p12FromDer := fun _ _ => .ok ⟨[]⟩
  keyFromPem := fun _ => .ok sampleKey
  decryptRsaPem := fun _ _ => some sampleKey
  keyFromDer := fun _ => .ok sampleKey
  decryptP8 := fun _ _ => .ok (some [])
  keyFromP8Info := fun _ => .ok sampleKey
  encKeyPemChain := fun _ => .ok []
  decryptRsaEncPem := fun _ _ => some sampleKey

/-- A `ForgeApi` in which every DER key strategy fails with its own error. -/
def apiErr : ForgeApi where
  certFromPem := fun _ => .error .asn1Failure
  certFromDer := fun _ => .error .asn1Failure
  p12FromDer := fun _ _ => .error .asn1Failure
  keyFromPem := fun _ => .error .asn1Failure
  decryptRsaPem := fun _ _ => none
  keyFromDer := fun _ => .error (.other "e1")
  decryptP8 := fun _ _ => .error (.other "e2")
  keyFromP8Info := fun _ => .error (.other "e2b")
  encKeyPemChain := fun _ => .error (.other "e3")
  decryptRsaEncPem := fun _ _ => none

/-- The `.cer` bytes of a misnamed PFX: longer than 100 bytes, beginning
`0x30 0x82`. -/
def cerPfxSample : List Nat := 0x30 :: 0x82 :: List.replicate 99 0

/-- The base64 body lines of the sample signed PEM. -/
def bodySample : List (List Char) := [['M', 'I', 'I', 'B'], ['A', 'Q', 'A', 'B']]

/-- A well-formed signed PEM as `forge.pkcs7.messageToPem` shapes it:
opening marker, CRLF-terminated base64 lines, closing marker, trailing
CRLF. -/
def pemSample : List Char :=
  beginPkcs7 ++ crlfSeq ++ (bodySample.map (· ++ crlfSeq)).flatten ++ endPkcs7 ++ crlfSeq

/-- A login environment in which everything succeeds except that the login
endpoint answers without a `Set-Cookie` header. -/
def envNoCookie : LoginEnv where
  firstOk := true
  firstStatus := 200
  firstText := "RETO".data
  pfxOk := true
  pfxStatus := 200
  pfxLen := 1024
  pfxBytes := toPkcs12Asn1 sampleKey sampleCert "clave" .threeDes 7
  pemOut := pemSample
  loginOk := true
  loginStatus := 200
  loginSetCookie := none

/-- A login environment whose challenge response body is whitespace-only. -/
def envEmptyChallenge : LoginEnv :=
  { envNoCookie with firstText := [' ', '\t'] }

/-! ## Lemmas about the JavaScript string operations -/

theorem startsWithSeq_self_append {α : Type} [DecidableEq α] (pat t : List α) :
    startsWithSeq pat (pat ++ t) = true := by
  induction pat with
  | nil => rfl
  | cons p ps ih => simp [startsWithSeq, ih]

theorem startsWithSeq_eq_true_iff {α : Type} [DecidableEq α] (pat l : List α) :
    startsWithSeq pat l = true ↔ ∃ t, l = pat ++ t := by
  constructor
  · intro h
    induction pat generalizing l with
    | nil => exact ⟨l, rfl⟩
    | cons p ps ih =>
      cases l with
      | nil => simp [startsWithSeq] at h
      | cons c cs =>
        simp only [startsWithSeq, Bool.and_eq_true, decide_eq_true_eq] at h
        obtain ⟨t, ht⟩ := ih cs h.2
        exact ⟨t, by simp [h.1, ht]⟩
  · rintro ⟨t, rfl⟩
    exact startsWithSeq_self_append pat t

theorem startsWithSeq_cons_of_head_ne {α : Type} [DecidableEq α]
    (p : α) (ps : List α) (c : α) (cs : List α) (h : c ≠ p) :
    startsWithSeq (p :: ps) (c :: cs) = false := by
  have hd : (decide (p = c)) = false := by
    simp only [decide_eq_false_iff_not]
    exact fun hpc => h hpc.symm
  simp [startsWithSeq, hd]

theorem replaceFirst_append_of_head_notMem {α : Type} [DecidableEq α]
    (p : α) (ps rep : List α) (a b : List α) (h : p ∉ a) :
    replaceFirst (p :: ps) rep (a ++ b) = a ++ replaceFirst (p :: ps) rep b := by
  induction a with
  | nil => rfl
  | cons c cs ih =>
    have hc : c ≠ p := fun hcp => h (hcp ▸ List.mem_cons_self c cs)
    have hmem : p ∉ cs := fun hm => h (List.mem_cons_of_mem c hm)
    have hd : startsWithSeq (p :: ps) (c :: (cs ++ b)) = false :=
      startsWithSeq_cons_of_head_ne p ps c (cs ++ b) hc
    rw [List.cons_append, replaceFirst, hd]
    simp [ih hmem]

theorem replaceFirst_of_startsWith {α : Type} [DecidableEq α]
    (pat rep t : List α) (hne : pat ≠ []) :
    replaceFirst pat rep (pat ++ t) = rep ++ t := by
  cases pat with
  | nil => exact absurd rfl hne
  | cons p ps =>
    have hs : startsWithSeq (p :: ps) (p :: (ps ++ t)) = true := by
      rw [← List.cons_append]
      exact startsWithSeq_self_append (p :: ps) t
    rw [List.cons_append, replaceFirst, hs, if_pos rfl]
    simp [List.drop_left]

theorem removeCRLF_crlf_cons (l : List Char) :
    removeCRLF ('\r' :: '\n' :: l) = removeCRLF l := by
  simp [removeCRLF]

theorem removeCRLF_append_of_noCR (a b : List Char) (h : ∀ c ∈ a, c ≠ '\r') :
    removeCRLF (a ++ b) = a ++ removeCRLF b := by
  induction a with
  | nil => rfl
  | cons c cs ih =>
    have hc : c ≠ '\r' := h c (List.mem_cons_self c cs)
    have hcs : ∀ x ∈ cs, x ≠ '\r' := fun x hx => h x (List.mem_cons_of_mem c hx)
    rw [List.cons_append]
    cases hcb : cs ++ b with
    | nil =>
      obtain ⟨hcsnil, hbnil⟩ := List.append_eq_nil.mp hcb
      subst hcsnil hbnil
      rfl
    | cons d ds =>
      rw [removeCRLF, if_neg (fun hand => hc hand.1), ← hcb, ih hcs, List.cons_append]

/-! ## Supporting lemmas about the bag-scanning loops -/

theorem isKeyBag_eq_true_iff (bag : SafeBag) :
    isKeyBag bag = true ↔ bag.bagType = .shroudedKeyBag ∧ bag.key.isSome := by
  simp [isKeyBag]

theorem isCertBag_eq_true_iff (bag : SafeBag) :
    isCertBag bag = true ↔ bag.bagType = .certBag ∧ bag.cert.isSome := by
  simp [isCertBag]

theorem foldl_validateBagStep (bags : List SafeBag) (acc : Bool × Bool) :
    bags.foldl validateBagStep acc
      = (acc.1 || bags.any isKeyBag, acc.2 || bags.any isCertBag) := by
  induction bags generalizing acc with
  | nil => simp
  | cons bag rest ih =>
    rw [List.foldl_cons, ih]
    by_cases hk : bag.bagType = SafeBagType.shroudedKeyBag ∧ bag.key.isSome
    · have hkb : isKeyBag bag = true := (isKeyBag_eq_true_iff bag).mpr hk
      have hcb : isCertBag bag = false := by
        rw [← Bool.not_eq_true, isCertBag_eq_true_iff]
        intro hcontra
        rw [hk.1] at hcontra
        exact SafeBagType.noConfusion hcontra.1
      simp [validateBagStep, hk, List.any_cons, hkb, hcb]
    · by_cases hc : bag.bagType = SafeBagType.certBag ∧ bag.cert.isSome
      · have hcb : isCertBag bag = true := (isCertBag_eq_true_iff bag).mpr hc
        have hkb : isKeyBag bag = false := by
          rw [← Bool.not_eq_true, isKeyBag_eq_true_iff]
          intro hcontra
          rw [hc.1] at hcontra
          exact SafeBagType.noConfusion hcontra.1
        simp [validateBagStep, hk, hc, List.any_cons, hkb, hcb]
      · have hkb : isKeyBag bag = false := by
          rw [← Bool.not_eq_true, isKeyBag_eq_true_iff]
          exact hk
        have hcb : isCertBag bag = false := by
          rw [← Bool.not_eq_true, isCertBag_eq_true_iff]
          exact hc
        simp [validateBagStep, hk, hc, List.any_cons, hkb, hcb]

theorem foldl_validate_contents (contents : List (List SafeBag)) (acc : Bool × Bool) :
    contents.foldl (fun acc bags => bags.foldl validateBagStep acc) acc
      = (acc.1 || contents.flatten.any isKeyBag,
         acc.2 || contents.flatten.any isCertBag) := by
  induction contents generalizing acc with
  | nil => simp
  | cons bags rest ih =>
    rw [List.foldl_cons, ih, foldl_validateBagStep]
    simp [List.any_append, Bool.or_assoc]

/-! ## Claim theorems -/

/-- **C1.** For every RSA private key, certificate and password, opening the
container produced by the builder (`toPkcs12Asn1` with a fresh random nonce)
with the same password succeeds and yields a certificate with the same
subject attributes and a key with the same modulus, while two builds with
distinct random nonces produce distinct output bytes. -/
theorem build_open_roundtrip (k : RSAPrivateKey) (c : Certificate) (pw : String)
    (alg : P12Alg) (n₁ n₂ : Nat) (hn : n₁ ≠ n₂) :
    (∃ k' c', openPfx (toPkcs12Asn1 k c pw alg n₁) pw = .ok (k', c') ∧
      k'.modulus = k.modulus ∧ c'.subject = c.subject) ∧
    toPkcs12Asn1 k c pw alg n₁ ≠ toPkcs12Asn1 k c pw alg n₂ := by
  constructor
  · refine ⟨k, c, ?_, rfl, rfl⟩
    simp [openPfx, pkcs12FromAsn1, toPkcs12Asn1, extractKeyCert, scanBagStep]
  · intro hcontra
    simp only [toPkcs12Asn1, PfxDer.p12.injEq] at hcontra
    exact hn hcontra.2.2.2

/-- Witness for `build_open_roundtrip` at a concrete key/certificate. -/
theorem build_open_roundtrip_witness :
    (0 : Nat) ≠ 1 ∧
    (∃ k' c',
      openPfx (toPkcs12Asn1 ⟨3233, 17, 413⟩ ⟨[("CN", "ACME")], 9⟩ "pw" .threeDes 0) "pw"
        = .ok (k', c') ∧
      k'.modulus = 3233 ∧ c'.subject = [("CN", "ACME")]) :=
  ⟨by decide,
    (build_open_roundtrip ⟨3233, 17, 413⟩ ⟨[("CN", "ACME")], 9⟩ "pw" .threeDes 0 1
      (by decide)).1⟩

/-- **C4.** For every container byte input and password, `validatePfx` is a
total Boolean function (it never throws) and returns `true` exactly when the
container decodes and decrypts under the password and the bag scan finds both
a private-key bag and a certificate bag; every decode, decrypt, or
missing-bag failure yields `false`. -/
theorem validatePfx_true_iff (b : PfxDer) (pw : String) :
    validatePfx b pw = true ↔
      ∃ p12, pkcs12FromAsn1 b pw = .ok p12 ∧
        (allBags p12).any isKeyBag = true ∧ (allBags p12).any isCertBag = true := by
  cases b with
  | notP12 raw =>
    simp [validatePfx, pkcs12FromAsn1]
  | p12 contents pw' alg nonce =>
    by_cases hpw : pw = pw'
    · have hparse : pkcs12FromAsn1 (PfxDer.p12 contents pw' alg nonce) pw
          = Except.ok ⟨contents⟩ := by
        simp [pkcs12FromAsn1, hpw]
      rw [validatePfx, hparse]
      simp [foldl_validate_contents, allBags]
    · rw [validatePfx]
      simp [pkcs12FromAsn1, hpw]

/-- **C9.** The container builder's cipher configuration recognizes exactly
the values `tripleDES` (3DES) and `aes256`; an unspecified cipher resolves to
the legacy 3DES cipher, and a container built with the resolved default is
encrypted with 3DES — as is every container the repository's conversion
pipeline builds, since its call sites pass `'3des'`. -/
theorem builder_cipher_default :
    (∀ a : P12Alg, a = .threeDes ∨ a = .aes256) ∧
    resolveCipher none = .threeDes ∧
    (∀ k c pw n, pfxAlg (toPkcs12Asn1 k c pw (resolveCipher none) n) = some .threeDes) ∧
    (∀ api cer key pw n p, (convertMain api cer key pw n).1 = .ok (.built p) →
      pfxAlg p = some .threeDes) := by
  refine ⟨fun a => by cases a <;> simp, rfl, fun k c pw n => rfl, ?_⟩
  intro api cer key pw n p h
  rw [convertMain] at h
  cases hcert : (parseCertificateT api cer).1 with
  | error e => rw [hcert] at h; exact absurd h (by simp)
  | ok cert =>
    rw [hcert] at h
    cases hkey : (parsePrivateKeyT api key pw).1 with
    | error e => rw [hkey] at h; exact absurd h (by simp)
    | ok kk =>
      rw [hkey] at h
      simp only [Except.ok.injEq, ConvertOut.built.injEq] at h
      rw [← h]
      rfl

/-- Witness for `builder_cipher_default`: the conversion pipeline at a
concrete successful run builds a 3DES container. -/
theorem builder_cipher_default_witness :
    (convertMain apiOk [1] [2] "pw" 5).1
      = .ok (.built (toPkcs12Asn1 sampleKey sampleCert "pw" .threeDes 5)) ∧
    pfxAlg (toPkcs12Asn1 sampleKey sampleCert "pw" .threeDes 5) = some .threeDes :=
  ⟨rfl, builder_cipher_default.2.2.2 apiOk [1] [2] "pw" 5
    (toPkcs12Asn1 sampleKey sampleCert "pw" .threeDes 5) rfl⟩

/-- **C3.** For every DER-encoded (non-PEM) private-key input and password,
the key parser tries the strategies in fixed order — unencrypted DER, then
encrypted PKCS#8, then legacy encrypted PKCS#5 — each later strategy running
exactly when the previous one raised an error; when all three fail, the error
surfaced is the one raised by the last attempted strategy, the intermediate
errors being swallowed. -/
theorem derKey_fallback_chain (api : ForgeApi) (keyBytes : List Nat) (password : String)
    (hder : containsSeq beginMarkerBytes keyBytes = false) :
    (∀ k, derStrat1 api keyBytes = .ok k →
      parsePrivateKeyT api keyBytes password = (.ok k, [.derPlain])) ∧
    (∀ e₁ k, derStrat1 api keyBytes = .error e₁ →
      derStrat2 api keyBytes password = .ok k →
      parsePrivateKeyT api keyBytes password = (.ok k, [.derPlain, .derPkcs8])) ∧
    (∀ e₁ e₂, derStrat1 api keyBytes = .error e₁ →
      derStrat2 api keyBytes password = .error e₂ →
      parsePrivateKeyT api keyBytes password
        = (derStrat3 api keyBytes password, [.derPlain, .derPkcs8, .derPkcs5])) ∧
    (∀ e₁ e₂ e₃, derStrat1 api keyBytes = .error e₁ →
      derStrat2 api keyBytes password = .error e₂ →
      derStrat3 api keyBytes password = .error e₃ →
      (parsePrivateKeyT api keyBytes password).1 = .error e₃) := by
  have hbranch : parsePrivateKeyT api keyBytes password
      = parseKeyDerT api keyBytes password := by
    rw [parsePrivateKeyT, hder]
    simp
  refine ⟨?_, ?_, ?_, ?_⟩
  · intro k h1
    rw [hbranch, parseKeyDerT, h1]
  · intro e₁ k h1 h2
    rw [hbranch, parseKeyDerT, h1, h2]
  · intro e₁ e₂ h1 h2
    rw [hbranch, parseKeyDerT, h1, h2]
  · intro e₁ e₂ e₃ h1 h2 h3
    rw [hbranch, parseKeyDerT, h1, h2, h3]

/-- Witness for `derKey_fallback_chain`: a DER input on which all three
strategies fail surfaces the last strategy's error. -/
theorem derKey_fallback_chain_witness :
    containsSeq beginMarkerBytes [0] = false ∧
    (parsePrivateKeyT apiErr [0] "pw").1 = .error (.other "e3") :=
  ⟨by decide,
    (derKey_fallback_chain apiErr [0] "pw" (by decide)).2.2.2
      (.other "e1") (.other "e2") (.other "e3") rfl rfl rfl⟩

/-- **C7.** For every certificate byte input: content containing the PEM
certificate marker is decoded exclusively by the PEM decoder (the raw-DER
path is never taken), anything else is decoded directly by the raw-DER
decoder; in both cases the result is exactly that single decoder's result,
so no fallback ever runs. -/
theorem cert_dispatch (api : ForgeApi) (cerBytes : List Nat) :
    (containsSeq certMarkerBytes cerBytes = true →
      parseCertificateT api cerBytes = (api.certFromPem cerBytes, .pemPath)) ∧
    (containsSeq certMarkerBytes cerBytes = false →
      parseCertificateT api cerBytes = (api.certFromDer cerBytes, .derPath)) := by
  constructor
  · intro h
    rw [parseCertificateT, h]
    simp
  · intro h
    rw [parseCertificateT, h]
    simp

/-- Witness for `cert_dispatch` at a PEM-marked input. -/
theorem cert_dispatch_witness :
    containsSeq certMarkerBytes certMarkerBytes = true ∧
    parseCertificateT apiErr certMarkerBytes
      = (apiErr.certFromPem certMarkerBytes, .pemPath) :=
  ⟨by decide, (cert_dispatch apiErr certMarkerBytes).1 (by decide)⟩

/-- **C8.** For every unencrypted DER private-key input (one the password-free
unencrypted-DER strategy decodes) and any two passwords, key parsing succeeds
via that strategy with the same key in both runs: the password value does not
influence the result. -/
theorem derKey_password_independent (api : ForgeApi) (keyBytes : List Nat)
    (pw₁ pw₂ : String) (k : RSAPrivateKey)
    (hder : containsSeq beginMarkerBytes keyBytes = false)
    (hok : api.keyFromDer keyBytes = .ok k) :
    parsePrivateKeyT api keyBytes pw₁ = (.ok k, [.derPlain]) ∧
    parsePrivateKeyT api keyBytes pw₁ = parsePrivateKeyT api keyBytes pw₂ := by
  have h₁ : parsePrivateKeyT api keyBytes pw₁ = (.ok k, [.derPlain]) := by
    rw [parsePrivateKeyT, hder]
    simp only [Bool.false_eq_true, if_false]
    rw [parseKeyDerT, derStrat1, hok]
  have h₂ : parsePrivateKeyT api keyBytes pw₂ = (.ok k, [.derPlain]) := by
    rw [parsePrivateKeyT, hder]
    simp only [Bool.false_eq_true, if_false]
    rw [parseKeyDerT, derStrat1, hok]
  exact ⟨h₁, h₁.trans h₂.symm⟩

/-- Witness for `derKey_password_independent` with a bogus second password. -/
theorem derKey_password_independent_witness :
    containsSeq beginMarkerBytes [0] = false ∧
    parsePrivateKeyT apiOk [0] "right" = (.ok sampleKey, [.derPlain]) ∧
    parsePrivateKeyT apiOk [0] "right" = parsePrivateKeyT apiOk [0] "bogus" :=
  ⟨by decide, derKey_password_independent apiOk [0] "right" "bogus" sampleKey
    (by decide) rfl⟩

/-- **C10.** For every URL-based conversion whose fetched certificate bytes
are longer than 100 bytes and begin `0x30 0x82`: if they parse as a PKCS#12
container under the supplied password, the conversion returns those bytes
unchanged and the key bytes are never parsed; if the PKCS#12 probe fails, the
conversion proceeds with the normal certificate-parsing pipeline. -/
theorem misnamed_pfx_probe (api : ForgeApi) (cerBytes keyBytes : List Nat)
    (password : String) (nonce : Nat)
    (hlen : 100 < cerBytes.length)
    (h0 : cerBytes.getD 0 0 = 0x30)
    (h1 : cerBytes.getD 1 0 = 0x82) :
    (∀ p, api.p12FromDer cerBytes password = .ok p →
      convertFromUrls api cerBytes keyBytes password nonce
        = (.ok (.rawPfx cerBytes), false)) ∧
    (∀ e, api.p12FromDer cerBytes password = .error e →
      convertFromUrls api cerBytes keyBytes password nonce
        = convertMain api cerBytes keyBytes password nonce) := by
  constructor
  · intro p hp
    rw [convertFromUrls, if_pos ⟨hlen, h0, h1⟩, hp]
  · intro e he
    rw [convertFromUrls, if_pos ⟨hlen, h0, h1⟩, he]

/-- Witness for `misnamed_pfx_probe`: a 101-byte `0x30 0x82 …` blob accepted
by the PKCS#12 probe is returned unchanged without parsing the key bytes. -/
theorem misnamed_pfx_probe_witness :
    100 < cerPfxSample.length ∧
    convertFromUrls apiOk cerPfxSample [7] "pw" 3 = (.ok (.rawPfx cerPfxSample), false) :=
  ⟨by decide,
    (misnamed_pfx_probe apiOk cerPfxSample [7] "pw" 3 (by decide) (by decide)
      (by decide)).1 ⟨[]⟩ rfl⟩

/-- A successful `generarPKCS7` never returns an empty PEM: the source checks
the signing output for emptiness before returning it. -/
theorem generarPKCS7_ok_nonempty (env : LoginEnv) (pw : String) (t pem : List Char)
    (h : generarPKCS7 env pw t = .ok pem) : pem.isEmpty = false := by
  rw [generarPKCS7] at h
  split at h
  · exact absurd h (by simp)
  · split at h
    · exact absurd h (by simp)
    · split at h
      · exact absurd h (by simp)
      · split at h
        · exact absurd h (by simp)
        · split at h
          · split at h
            · exact absurd h (by simp)
            · rename_i hne
              cases h
              simpa using hne
          · exact absurd h (by simp)

/-- **C5.** In every run of the login handshake that reaches the login
endpoint and gets a response without a `Set-Cookie` header, even an HTTP-ok
one, the session ends in the no-cookie failure, whose spec category is
`AuthenticationRejectedError`; no session token is stored and
`isLoggedIn` is false afterwards. -/
theorem login_no_cookie_rejected (env : LoginEnv) (password : String) (s : ConnState)
    (pem : List Char)
    (h1 : env.firstOk = true)
    (h2 : (env.firstText.isEmpty || (trimSeq env.firstText).isEmpty) = false)
    (h3 : generarPKCS7 env password env.firstText = .ok pem)
    (h4 : env.loginOk = true)
    (h5 : env.loginSetCookie = none) :
    (login env password s).result = .error .noCookies ∧
    loginErrCategory .noCookies = .authenticationRejectedError ∧
    (login env password s).state.cookies = none ∧
    isLoggedIn (login env password s).state = false := by
  have hpem := generarPKCS7_ok_nonempty env password env.firstText pem h3
  simp [login, h1, h2, h3, hpem, h4, h5, jsCookieAssign, isLoggedIn, loginErrCategory]

/-- Witness for `login_no_cookie_rejected` on a concrete full run. -/
theorem login_no_cookie_rejected_witness :
    envNoCookie.loginSetCookie = none ∧
    (login envNoCookie "clave" ⟨none, false⟩).result = .error .noCookies ∧
    isLoggedIn (login envNoCookie "clave" ⟨none, false⟩).state = false :=
  ⟨rfl,
    (login_no_cookie_rejected envNoCookie "clave" ⟨none, false⟩ pemSample
      rfl rfl rfl rfl rfl).1,
    (login_no_cookie_rejected envNoCookie "clave" ⟨none, false⟩ pemSample
      rfl rfl rfl rfl rfl).2.2.2⟩

/-- **C6.** In every run of the login handshake in which the challenge
endpoint answers with an empty or whitespace-only body, the session fails
with the empty-challenge error, whose spec category is `NetworkError`, and
the signer is never invoked. -/
theorem login_empty_challenge (env : LoginEnv) (password : String) (s : ConnState)
    (h1 : env.firstOk = true)
    (h2 : (trimSeq env.firstText).isEmpty = true) :
    (login env password s).result = .error .emptyChallenge ∧
    loginErrCategory .emptyChallenge = .networkError ∧
    (login env password s).signerInvoked = false := by
  simp [login, h1, h2, loginErrCategory]

/-- Witness for `login_empty_challenge` on a whitespace-only challenge. -/
theorem login_empty_challenge_witness :
    (trimSeq envEmptyChallenge.firstText).isEmpty = true ∧
    (login envEmptyChallenge "clave" ⟨none, false⟩).result = .error .emptyChallenge ∧
    (login envEmptyChallenge "clave" ⟨none, false⟩).signerInvoked = false :=
  ⟨by decide,
    (login_empty_challenge envEmptyChallenge "clave" ⟨none, false⟩ rfl (by decide)).1,
    (login_empty_challenge envEmptyChallenge "clave" ⟨none, false⟩ rfl (by decide)).2.2⟩

/-- Removing CRLFs from a sequence of CRLF-terminated CR-free lines yields
their concatenation. -/
theorem removeCRLF_bodyJoin (body : List (List Char)) (t : List Char)
    (hbody : ∀ line ∈ body, ∀ ch ∈ line, ch ≠ '\r') :
    removeCRLF ((body.map (· ++ crlfSeq)).flatten ++ t)
      = body.flatten ++ removeCRLF t := by
  induction body with
  | nil => simp
  | cons line rest ih =>
    have hline : ∀ ch ∈ line, ch ≠ '\r' := hbody line (List.mem_cons_self line rest)
    have hrest : ∀ l ∈ rest, ∀ ch ∈ l, ch ≠ '\r' :=
      fun l hl => hbody l (List.mem_cons_of_mem line hl)
    simp only [List.map_cons, List.flatten_cons, List.append_assoc]
    rw [removeCRLF_append_of_noCR line _ hline]
    rw [show crlfSeq ++ ((rest.map (· ++ crlfSeq)).flatten ++ t)
        = '\r' :: '\n' :: ((rest.map (· ++ crlfSeq)).flatten ++ t) from rfl]
    rw [removeCRLF_crlf_cons, ih hrest]

/-- The source's signed-text transform, evaluated on a PEM of the exact shape
`forge.pkcs7.messageToPem` produces: the CRLFs disappear, the opening marker
is removed, and the closing marker becomes the portal-specific
`-----END+PKCS7-----`. -/
theorem parsedpkcs7_wellformed (body : List (List Char))
    (hbody : ∀ line ∈ body, ∀ ch ∈ line, ch ≠ '\r' ∧ ch ≠ '-') :
    parsedpkcs7
        (beginPkcs7 ++ crlfSeq ++ (body.map (· ++ crlfSeq)).flatten
          ++ endPkcs7 ++ crlfSeq)
      = body.flatten ++ endPlusPkcs7 := by
  have hnoCR : ∀ line ∈ body, ∀ ch ∈ line, ch ≠ '\r' :=
    fun l hl c hc => (hbody l hl c hc).1
  have hnoDash : '-' ∉ body.flatten := by
    intro hch
    obtain ⟨l, hl, hc⟩ := List.mem_flatten.mp hch
    exact (hbody l hl '-' hc).2 rfl
  rw [parsedpkcs7]
  rw [List.append_assoc, List.append_assoc, List.append_assoc]
  rw [removeCRLF_append_of_noCR beginPkcs7 _ (by decide)]
  rw [show crlfSeq ++ ((body.map (· ++ crlfSeq)).flatten ++ (endPkcs7 ++ crlfSeq))
      = '\r' :: '\n' :: ((body.map (· ++ crlfSeq)).flatten ++ (endPkcs7 ++ crlfSeq))
      from rfl]
  rw [removeCRLF_crlf_cons]
  rw [removeCRLF_bodyJoin body (endPkcs7 ++ crlfSeq) hnoCR]
  rw [removeCRLF_append_of_noCR endPkcs7 crlfSeq (by decide)]
  rw [show removeCRLF crlfSeq = [] from rfl, List.append_nil]
  rw [replaceFirst_of_startsWith beginPkcs7 [] (body.flatten ++ endPkcs7) (by decide)]
  rw [List.nil_append]
  have hend : endPkcs7 = '-' :: endPkcs7.tail := by decide
  rw [hend, replaceFirst_append_of_head_notMem '-' endPkcs7.tail endPlusPkcs7
    body.flatten ('-' :: endPkcs7.tail) hnoDash]
  congr 1

/-- **C2 (counterexample).** On a concrete full login run, the text submitted
to the login endpoint is the source transform of the signed PEM, and that
text does *not* contain the opening marker `-----BEGIN PKCS7-----` (which the
PEM does contain): the transform removes the opening marker instead of
keeping it, differing from the transform the specification words describe. -/
theorem login_submitted_drops_begin_marker :
    (login envNoCookie "clave" ⟨none, false⟩).submitted = some (parsedpkcs7 pemSample) ∧
    parsedpkcs7 pemSample ≠ specWordedTransform pemSample ∧
    containsSeq beginPkcs7 pemSample = true ∧
    containsSeq beginPkcs7 (parsedpkcs7 pemSample) = false := by
  refine ⟨by decide, by decide, by decide, by decide⟩

/-- **C2 (amended).** For every signed PEM of the shape the signer produces
(opening marker, CRLF-terminated base64 lines, closing marker), the text
submitted to the login endpoint is that PEM with all CRLF line breaks
removed, the first occurrence of the opening marker removed, and the closing
marker replaced by `-----END+PKCS7-----`: it is exactly the concatenated
base64 body followed by `-----END+PKCS7-----`. -/
theorem login_submitted_transform (env : LoginEnv) (password : String) (s : ConnState)
    (pem : List Char) (body : List (List Char))
    (h1 : env.firstOk = true)
    (h2 : (env.firstText.isEmpty || (trimSeq env.firstText).isEmpty) = false)
    (h3 : generarPKCS7 env password env.firstText = .ok pem)
    (hshape : pem = beginPkcs7 ++ crlfSeq ++ (body.map (· ++ crlfSeq)).flatten
      ++ endPkcs7 ++ crlfSeq)
    (hbody : ∀ line ∈ body, ∀ ch ∈ line, ch ≠ '\r' ∧ ch ≠ '-') :
    (login env password s).submitted = some (body.flatten ++ endPlusPkcs7) := by
  have hpem := generarPKCS7_ok_nonempty env password env.firstText pem h3
  have htrans : parsedpkcs7 pem = body.flatten ++ endPlusPkcs7 := by
    rw [hshape]
    exact parsedpkcs7_wellformed body hbody
  by_cases hok : env.loginOk = true
  · by_cases hck : (jsCookieAssign env.loginSetCookie).isNone
    · simp [login, h1, h2, h3, hpem, hok, hck, htrans]
    · simp [login, h1, h2, h3, hpem, hok, hck, htrans]
  · simp [login, h1, h2, h3, hpem, hok, htrans]

/-- Witness for `login_submitted_transform` on a concrete full run. -/
theorem login_submitted_transform_witness :
    pemSample = beginPkcs7 ++ crlfSeq ++ (bodySample.map (· ++ crlfSeq)).flatten
      ++ endPkcs7 ++ crlfSeq ∧
    (login envNoCookie "clave" ⟨none, false⟩).submitted
      = some (bodySample.flatten ++ endPlusPkcs7) :=
  ⟨rfl,
    login_submitted_transform envNoCookie "clave" ⟨none, false⟩ pemSample bodySample
      rfl rfl rfl rfl (by decide)⟩
